import Mathlib

/-!
Shallow embedding of the agent-orchestration core of the repository
(`backend/app/main.py`, `backend/app/tool_caller.py`,
`backend/app/llm_service.py`) and proofs about it.

External effects (the Gemini `generate_content` calls, the HTTP POST to the
n8n webhook, the database commit) are modelled as oracles packaged in an
`Env` record; the orchestration logic itself is translated line by line
from the Python source.  Python string operations used by the source
(`str.strip`, `str.startswith`, `str.replace`, `str.lower`) are modelled
as executable Lean functions over the character lists of strings.
-/

namespace AgentHackathon

/-! ### Models of the Python string primitives used by the source -/

/-- Characters removed by Python `str.strip()` (ASCII whitespace). -/
def pySpace (c : Char) : Bool :=
  c = ' ' || c = '\t' || c = '\n' || c = '\x0d' || c = '\x0b' || c = '\x0c'

/-- Python `str.strip()` on a character list: drop leading and trailing
whitespace. -/
def pyStripList (l : List Char) : List Char :=
  ((l.dropWhile pySpace).reverse.dropWhile pySpace).reverse

/-- Python `str.strip()`. -/
def pyStrip (s : String) : String := ⟨pyStripList s.data⟩

/-- Does `pat` match at the head of `l`?  (Anchored, character-exact,
hence case-sensitive.) -/
def matchesAt : List Char → List Char → Bool
  | [], _ => true
  | _ :: _, [] => false
  | p :: ps, c :: cs => p == c && matchesAt ps cs

/-- Python `s.startswith(pre)`: anchored case-sensitive prefix test. -/
def pyStartswith (s pre : String) : Bool := matchesAt pre.data s.data

/-- Does `pat` occur (as a contiguous run) anywhere in `l`? -/
def occursIn (pat : List Char) : List Char → Bool
  | [] => matchesAt pat []
  | c :: cs => matchesAt pat (c :: cs) || occursIn pat cs

/-- Fuel-driven worker for Python `str.replace`: replace every
non-overlapping occurrence of `pat`, scanning left to right.  The fuel is
an upper bound on the number of scan steps; each step consumes at least
one character, so fuel equal to the list length is always enough. -/
def replaceAux (pat rep : List Char) : Nat → List Char → List Char
  | 0, l => l
  | _ + 1, [] => []
  | fuel + 1, c :: cs =>
    if matchesAt pat (c :: cs) then
      rep ++ replaceAux pat rep fuel (cs.drop (pat.length - 1))
    else
      c :: replaceAux pat rep fuel cs

/-- Python `s.replace(pat, rep)` for a non-empty `pat`: replaces every
non-overlapping occurrence, left to right. -/
def pyReplace (s pat rep : String) : String :=
  ⟨replaceAux pat.data rep.data s.data.length s.data⟩

/-- Python `str.lower()` restricted to ASCII, which is all the source
compares (`"true"`). -/
def pyLower (s : String) : String := ⟨s.data.map Char.toLower⟩

/-- Boolean equality test on `Except`, component-wise. -/
def exceptBeq {ε α : Type} [DecidableEq ε] [DecidableEq α] :
    Except ε α → Except ε α → Bool
  | .error a, .error b => a = b
  | .ok a, .ok b => a = b
  | _, _ => false

instance {ε α : Type} [DecidableEq ε] [DecidableEq α] : DecidableEq (Except ε α) :=
  fun x y =>
    decidable_of_iff (exceptBeq x y = true) (by cases x <;> cases y <;> simp [exceptBeq])

/-! ### Model of `tool_caller.py` -/

/-- Outcome of the single outbound HTTP POST made by `call_search_web`.

`requestError` models `httpx.RequestError` (connection refused, timeout,
DNS failure, any transport-level failure); its field is `str(e)`.
`response` models a response that arrived: its HTTP status code, the
decoded JSON body (`none` when the body is not valid JSON, in which case
`response.json()` raises), the message of the `HTTPStatusError` that
`raise_for_status()` would raise, and the message of the JSON decode
error. -/
inductive HttpOutcome where
  | requestError (msg : String)
  | response (status : Nat) (body : Option String) (statusMsg decodeMsg : String)
deriving DecidableEq

/-- `raise_for_status()` raises exactly for client-error (4xx) and
server-error (5xx) status codes. -/
def statusRaises (status : Nat) : Bool := 400 ≤ status && status < 600

/-- What `call_search_web` hands back to the orchestrator: either the
decoded JSON body of a successful response (abstracted by its string
rendering), or one of the error dictionaries built in the two `except`
clauses, kept as an ordered key/value list so that the keys are
observable. -/
inductive ToolPayload where
  | json (rendered : String)
  | dict (entries : List (String × String))
deriving DecidableEq

/-- Model of `call_search_web` (`tool_caller.py`): posts `{query}` to the
webhook; `httpx.RequestError` is converted to the `"Request failed"`
dictionary; any other exception — the `HTTPStatusError` raised by
`raise_for_status()` on a 4xx/5xx status, or a JSON decode failure —
is converted by the blanket `except Exception` clause to the
`"Unexpected error"` dictionary.  Never raises. -/
def call_search_web (query : String) (out : HttpOutcome) : ToolPayload :=
  match out with
  | .requestError msg =>
    .dict [("error", "Request failed"), ("message", msg), ("query", query)]
  | .response status body statusMsg decodeMsg =>
    if statusRaises status then
      .dict [("error", "Unexpected error"), ("message", statusMsg), ("query", query)]
    else
      match body with
      | some j => .json j
      | none =>
        .dict [("error", "Unexpected error"), ("message", decodeMsg), ("query", query)]

/-- Python `str(dict)` for a flat string-valued dictionary (key order is
insertion order), used when the payload is interpolated into the
synthesis f-string. -/
def renderDict (entries : List (String × String)) : String :=
  "\x7b" ++
    String.intercalate ", "
      (entries.map (fun kv => "\x27" ++ kv.1 ++ "\x27: \x27" ++ kv.2 ++ "\x27")) ++
  "\x7d"

/-- String interpolation of a tool payload into the synthesis prompt. -/
def renderPayload : ToolPayload → String
  | .json j => j
  | .dict entries => renderDict entries

/-! ### Model of `llm_service.py` -/

/-- The environment variables read by `get_gemini_model`; `none` models an
unset variable (`os.getenv` returning `None`). -/
structure ProviderConfig where
  use_vertexai : Option String
  cloud_project : Option String
  cloud_location : Option String
  api_key : Option String
deriving DecidableEq

/-- The one tool exposed to the model (`tools = [search_web]`). -/
inductive Tool where
  | search_web
deriving DecidableEq

/-- The constructed `genai.Client`, remembering which authentication mode
and parameters were used. -/
inductive Client where
  | vertex (project location : String)
  | apiKey (key : String)
deriving DecidableEq

/-- Python truthiness test `not x` for an optional string: true for `None`
and for the empty string. -/
def strFalsy : Option String → Bool
  | none => true
  | some s => s == ""

/-- The `use_vertex` flag: `os.getenv("GOOGLE_GENAI_USE_VERTEXAI", "").lower() == "true"`. -/
def useVertex (cfg : ProviderConfig) : Bool :=
  pyLower (cfg.use_vertexai.getD "") == "true"

/-- Error message raised when Vertex mode is on but no project is set. -/
def vertexProjectError : String :=
  "GOOGLE_CLOUD_PROJECT no está configurado. Es requerido cuando se usa Vertex AI."

/-- Error message raised when API-key mode is on but no key is set. -/
def apiKeyError : String :=
  "No se encontró GOOGLE_API_KEY. Asegúrate de configurarla en el archivo docker-compose.yml o habilita Vertex AI con GOOGLE_GENAI_USE_VERTEXAI=True"

/-- Model of `get_gemini_model` (`llm_service.py`): picks the
authentication mode from `GOOGLE_GENAI_USE_VERTEXAI`, raises `ValueError`
(modelled as `Except.error`) when the required setting is missing or
empty, otherwise returns the client together with `tools = [search_web]`. -/
def get_gemini_model (cfg : ProviderConfig) : Except String (Client × List Tool) :=
  if useVertex cfg then
    let project := cfg.cloud_project
    let location := cfg.cloud_location.getD "us-central1"
    if strFalsy project then
      .error vertexProjectError
    else
      .ok (.vertex (project.getD "") location, [.search_web])
  else
    let api_key := cfg.api_key
    if strFalsy api_key then
      .error apiKeyError
    else
      .ok (.apiKey (api_key.getD ""), [.search_web])

/-! ### Model of `main.py` (`process_query`) -/

/-- The request body of `POST /api/v1/query`. -/
structure QueryRequest where
  user_name : String
  prompt : String
deriving DecidableEq

/-- A `QueryLog` row as built at the persistence step (the id and
timestamp are assigned by the database). -/
structure QueryLog where
  user_name : String
  prompt_text : String
  final_answer : String
deriving DecidableEq

/-- The external-effect oracles of one request: `gen` is the outcome of
`client.models.generate_content` on given contents (`Except.error` models
a provider exception), `http` is the network outcome the webhook POST
would see for a given query, `commitOk` tells whether the
`db.add`/`db.commit`/`db.refresh` sequence succeeds, and `commitError` is
the exception message when it fails. -/
structure Env where
  config : ProviderConfig
  gen : String → Except String String
  http : String → HttpOutcome
  commitOk : Bool
  commitError : String

/-- The classification f-string (`analysis_prompt` in `process_query`). -/
def analysis_prompt (prompt : String) : String :=
  "Analiza la siguiente consulta del usuario y determina si necesitas buscar información actualizada en la web para responderla correctamente.\n\nConsulta del usuario: \"" ++ prompt ++ "\"\n\nResponde ÚNICAMENTE con una de estas dos opciones:\n- Si necesitas buscar en la web (noticias, eventos actuales, información reciente): Responde solo \"BUSCAR: <query optimizada para búsqueda>\"\n- Si puedes responder con tu conocimiento actual: Responde solo \"RESPONDER\"\n\nTu respuesta:"

/-- The query extraction of line 156 of `main.py`:
`analysis_text.replace("BUSCAR:", "").strip()`.  Note that `str.replace`
removes every occurrence of `"BUSCAR:"`, not only the leading one. -/
def extract_query (analysis_text : String) : String :=
  pyStrip (pyReplace analysis_text "BUSCAR:" "")

/-- The synthesis f-string (`final_prompt` in `process_query`): restates
the original user prompt and interpolates `str(tool_results_dict)`. -/
def final_prompt (prompt payloadStr : String) : String :=
  "El usuario preguntó: \"" ++ prompt ++ "\"\n\nEncontré esta información actualizada en la web:\n" ++ payloadStr ++ "\n\nPor favor, genera una respuesta completa y útil para el usuario basándote en esta información. Sé específico y cita datos relevantes."

/-- Outcome of the answer-computation phase of `process_query` (lines
131–187): the final answer or the first provider exception, together with
the contents of every `generate_content` call made and the query of every
`call_search_web` call made, in order. -/
structure AgentOutcome where
  result : Except String String
  genCalls : List String
  toolCalls : List String
deriving DecidableEq

/-- Lines 131–187 of `process_query`: classify, then either search and
synthesize or answer directly.  A provider exception anywhere stops the
phase (it propagates to the `except` clause of the handler). -/
def compute_answer (env : Env) (req : QueryRequest) : AgentOutcome :=
  match env.gen (analysis_prompt req.prompt) with
  | .error e => ⟨.error e, [analysis_prompt req.prompt], []⟩
  | .ok raw =>
    let analysis_text := pyStrip raw
    if pyStartswith analysis_text "BUSCAR:" then
      let query := extract_query analysis_text
      let tool_results := call_search_web query (env.http query)
      let fp := final_prompt req.prompt (renderPayload tool_results)
      match env.gen fp with
      | .error e => ⟨.error e, [analysis_prompt req.prompt, fp], [query]⟩
      | .ok ans => ⟨.ok ans, [analysis_prompt req.prompt, fp], [query]⟩
    else
      match env.gen req.prompt with
      | .error e => ⟨.error e, [analysis_prompt req.prompt, req.prompt], []⟩
      | .ok ans => ⟨.ok ans, [analysis_prompt req.prompt, req.prompt], []⟩

/-- The `detail` string of the `HTTPException` raised by the handler's
`except` clause. -/
def err_detail (e : String) : String := "Error procesando la consulta: " ++ e

/-- Observable side effects of one `process_query` request: the
`generate_content` calls, the `call_search_web` calls, the attempted
`QueryLog` writes, and whether `db.rollback()` was called. -/
structure Trace where
  genCalls : List String
  toolCalls : List String
  logAttempts : List QueryLog
  rolledBack : Bool
deriving DecidableEq

/-- The full `POST /api/v1/query` handler (`process_query`, lines
124–214): obtain the client (`get_gemini_model`), compute the answer,
attempt the single log write, return the answer; any exception along the
way reaches the `except` clause, which rolls the transaction back and
raises `HTTPException(500, err_detail e)` (modelled as `Except.error`). -/
def process_query (env : Env) (req : QueryRequest) : Except String String × Trace :=
  match get_gemini_model env.config with
  | .error e => (.error (err_detail e), ⟨[], [], [], true⟩)
  | .ok _ =>
    match compute_answer env req with
    | ⟨.error e, gs, ts⟩ => (.error (err_detail e), ⟨gs, ts, [], true⟩)
    | ⟨.ok final_answer, gs, ts⟩ =>
      let db_log : QueryLog := ⟨req.user_name, req.prompt, final_answer⟩
      if env.commitOk then
        (.ok final_answer, ⟨gs, ts, [db_log], false⟩)
      else
        (.error (err_detail env.commitError), ⟨gs, ts, [db_log], true⟩)

/-! ### Helper lemmas about the string-primitive models -/

/-- A pattern always matches at the head of a list that extends it. -/
theorem matchesAt_append_self (pat rest : List Char) :
    matchesAt pat (pat ++ rest) = true := by
  induction pat with
  | nil => rfl
  | cons c cs ih => simp [matchesAt, ih]

/-- Anchored-match characterisation: `matchesAt pat l` holds exactly when
`l` is `pat` followed by some remainder. -/
theorem matchesAt_iff_exists (pat l : List Char) :
    matchesAt pat l = true ↔ ∃ rest, l = pat ++ rest := by
  induction pat generalizing l with
  | nil => simp [matchesAt]
  | cons c cs ih =>
    cases l with
    | nil => simp [matchesAt]
    | cons d ds =>
      simp only [matchesAt, Bool.and_eq_true, beq_iff_eq, ih, List.cons_append,
        List.cons.injEq]
      constructor
      · rintro ⟨rfl, rest, rfl⟩; exact ⟨rest, rfl, rfl⟩
      · rintro ⟨rest, rfl, rfl⟩; exact ⟨rfl, rest, rfl⟩

/-- When the pattern occurs nowhere in the list, replacement leaves the
list unchanged, whatever the fuel. -/
theorem replaceAux_no_occur (pat rep : List Char) (fuel : Nat) (l : List Char)
    (h : occursIn pat l = false) : replaceAux pat rep fuel l = l := by
  induction fuel generalizing l with
  | zero => rfl
  | succ f ih =>
    cases l with
    | nil => rfl
    | cons c cs =>
      simp only [occursIn, Bool.or_eq_false_iff] at h
      simp [replaceAux, h.1, ih cs h.2]

/-- One replacement step at an anchored occurrence of a non-empty
pattern. -/
theorem replaceAux_append_self (pat rep rest : List Char) (fuel : Nat)
    (hp : pat ≠ []) :
    replaceAux pat rep (fuel + 1) (pat ++ rest) = rep ++ replaceAux pat rep fuel rest := by
  cases pat with
  | nil => exact absurd rfl hp
  | cons c cs =>
    have hm : matchesAt (c :: cs) ((c :: cs) ++ rest) = true := matchesAt_append_self _ _
    simp only [List.cons_append] at hm ⊢
    simp [replaceAux, hm, List.drop_left]

/-- If the trimmed classifier output is `"BUSCAR:"` followed by a
remainder in which `"BUSCAR:"` never occurs again, then the extraction of
line 156 returns exactly that remainder, trimmed. -/
theorem extract_query_of_no_repeat (t : String) (rest : List Char)
    (hrest : t.data = "BUSCAR:".data ++ rest)
    (hno : occursIn "BUSCAR:".data rest = false) :
    extract_query t = pyStrip ⟨rest⟩ := by
  have h7 : ("BUSCAR:".data).length = 7 := by decide
  have hlen : t.data.length = (6 + rest.length) + 1 := by
    rw [hrest, List.length_append, h7]; omega
  unfold extract_query pyReplace
  rw [hlen, hrest]
  rw [show ("" : String).data = [] from rfl]
  rw [replaceAux_append_self _ _ _ _ (by decide)]
  rw [replaceAux_no_occur _ _ _ _ hno]
  rw [List.nil_append]

/-! ### Branch-reduction lemmas for the orchestrator -/

/-- Reduction of `process_query` on the search branch: client obtained,
classification returned, trimmed output starts with `BUSCAR:`. -/
theorem process_query_search (env : Env) (req : QueryRequest)
    (c : Client × List Tool) (raw : String)
    (hm : get_gemini_model env.config = .ok c)
    (hc : env.gen (analysis_prompt req.prompt) = .ok raw)
    (hpre : pyStartswith (pyStrip raw) "BUSCAR:" = true) :
    process_query env req =
      (let query := extract_query (pyStrip raw)
       let fp := final_prompt req.prompt (renderPayload (call_search_web query (env.http query)))
       match env.gen fp with
       | .error e =>
         (.error (err_detail e), ⟨[analysis_prompt req.prompt, fp], [query], [], true⟩)
       | .ok ans =>
         if env.commitOk then
           (.ok ans,
            ⟨[analysis_prompt req.prompt, fp], [query], [⟨req.user_name, req.prompt, ans⟩], false⟩)
         else
           (.error (err_detail env.commitError),
            ⟨[analysis_prompt req.prompt, fp], [query], [⟨req.user_name, req.prompt, ans⟩], true⟩)) := by
  unfold process_query compute_answer
  rw [hm, hc]
  simp only [hpre, if_true]
  cases env.gen (final_prompt req.prompt (renderPayload
      (call_search_web (extract_query (pyStrip raw))
        (env.http (extract_query (pyStrip raw)))))) <;> rfl

/-- Reduction of `process_query` on the direct-answer branch: client
obtained, classification returned, trimmed output does not start with
`BUSCAR:`. -/
theorem process_query_direct (env : Env) (req : QueryRequest)
    (c : Client × List Tool) (raw : String)
    (hm : get_gemini_model env.config = .ok c)
    (hc : env.gen (analysis_prompt req.prompt) = .ok raw)
    (hnp : pyStartswith (pyStrip raw) "BUSCAR:" = false) :
    process_query env req =
      (match env.gen req.prompt with
       | .error e =>
         (.error (err_detail e), ⟨[analysis_prompt req.prompt, req.prompt], [], [], true⟩)
       | .ok ans =>
         if env.commitOk then
           (.ok ans,
            ⟨[analysis_prompt req.prompt, req.prompt], [], [⟨req.user_name, req.prompt, ans⟩], false⟩)
         else
           (.error (err_detail env.commitError),
            ⟨[analysis_prompt req.prompt, req.prompt], [], [⟨req.user_name, req.prompt, ans⟩], true⟩)) := by
  unfold process_query compute_answer
  rw [hm, hc]
  simp only [hnp, Bool.false_eq_true, if_false]
  cases env.gen req.prompt <;> rfl

/-! ### Claim C2 -/

/-- Classification of HTTP outcomes the claim calls failures: a
transport-level failure (`httpx.RequestError`: connection refused,
timeout, DNS failure) or a response whose status code makes
`raise_for_status()` raise. -/
def failureOutcome : HttpOutcome → Bool
  | .requestError _ => true
  | .response status _ _ _ => statusRaises status

/-- C2: for every input query string, if the outbound HTTP call made by
`call_search_web` fails at the transport level or returns a non-success
status code, the function does not raise to its caller (it is a total
function into `ToolPayload`): it returns a structured failure dictionary,
and that dictionary always contains the original query string under the
`query` key. -/
theorem C2_failure_payload_contains_query (query : String) (out : HttpOutcome)
    (h : failureOutcome out = true) :
    ∃ entries, call_search_web query out = .dict entries ∧ ("query", query) ∈ entries := by
  cases out with
  | requestError msg =>
    exact ⟨[("error", "Request failed"), ("message", msg), ("query", query)], rfl, by simp⟩
  | response status body sm dm =>
    have hs : statusRaises status = true := by simpa [failureOutcome] using h
    refine ⟨[("error", "Unexpected error"), ("message", sm), ("query", query)], ?_, by simp⟩
    simp [call_search_web, hs]

/-- Witness for C2 at a concrete timed-out request. -/
theorem C2_failure_payload_contains_query_witness :
    failureOutcome (.requestError "timed out") = true
    ∧ ∃ entries,
        call_search_web "clima Paris hoy" (.requestError "timed out") = .dict entries
        ∧ ("query", "clima Paris hoy") ∈ entries :=
  ⟨by decide,
   C2_failure_payload_contains_query "clima Paris hoy" (.requestError "timed out") (by decide)⟩

/-! ### Claim C3 -/

/-- C3 counterexample: the claim says the error payload keys are
`error_kind`, `message`, `query` with `error_kind` valued
`"request_failed"` or `"unexpected_error"`.  At a concrete transport
failure the code builds the dictionary with first key `error` (the key
`error_kind` does not occur) and value `"Request failed"`. -/
theorem C3_counterexample :
    call_search_web "clima" (.requestError "timed out")
      = .dict [("error", "Request failed"), ("message", "timed out"), ("query", "clima")]
    ∧ ([("error", "Request failed"), ("message", "timed out"), ("query", "clima")].map Prod.fst
        = ["error", "message", "query"])
    ∧ "error_kind" ∉ ["error", "message", "query"]
    ∧ "Request failed" ≠ "request_failed" ∧ "Request failed" ≠ "unexpected_error" := by
  decide

/-- C3 amended: for every failing `call_search_web` call, the returned
error payload is a dictionary whose keys, in order, are `error`,
`message`, and `query`; the value under `query` is the original query,
and the value under `error` is either `"Request failed"` (transport
failures, including timeouts) or `"Unexpected error"` (any other failure,
including non-success status codes and JSON-decode failures). -/
theorem C3_error_payload_shape (query : String) (out : HttpOutcome)
    (entries : List (String × String))
    (h : call_search_web query out = .dict entries) :
    ∃ ek m, entries = [("error", ek), ("message", m), ("query", query)]
      ∧ (ek = "Request failed" ∨ ek = "Unexpected error") := by
  cases out with
  | requestError msg =>
    refine ⟨"Request failed", msg, ?_, Or.inl rfl⟩
    simpa [call_search_web] using h.symm
  | response status body sm dm =>
    by_cases hs : statusRaises status = true
    · refine ⟨"Unexpected error", sm, ?_, Or.inr rfl⟩
      simpa [call_search_web, hs] using h.symm
    · have hs' : statusRaises status = false := by simpa using hs
      cases body with
      | some j => simp [call_search_web, hs'] at h
      | none =>
        refine ⟨"Unexpected error", dm, ?_, Or.inr rfl⟩
        simpa [call_search_web, hs'] using h.symm

/-- Witness for C3's amended claim at a concrete transport failure. -/
theorem C3_error_payload_shape_witness :
    call_search_web "q" (.requestError "boom")
      = .dict [("error", "Request failed"), ("message", "boom"), ("query", "q")]
    ∧ ∃ ek m,
        [("error", "Request failed"), ("message", "boom"), ("query", "q")]
          = [("error", ek), ("message", m), ("query", "q")]
        ∧ (ek = "Request failed" ∨ ek = "Unexpected error") :=
  ⟨by decide, C3_error_payload_shape "q" (.requestError "boom") _ (by decide)⟩

/-! ### Claim C4 -/

/-- C4 counterexample: the claim says the extracted search query equals
everything after the prefix, trimmed, for every classifier output,
including ones that contain `BUSCAR:` again inside the query text.  On
the output `"BUSCAR: a BUSCAR: b"` the code's
`replace("BUSCAR:", "").strip()` removes the inner occurrence too and
yields `"a  b"`, while everything after the prefix, trimmed, is
`"a BUSCAR: b"`. -/
theorem C4_counterexample :
    pyStrip "BUSCAR: a BUSCAR: b" = "BUSCAR: a BUSCAR: b"
    ∧ pyStartswith "BUSCAR: a BUSCAR: b" "BUSCAR:" = true
    ∧ extract_query "BUSCAR: a BUSCAR: b" = "a  b"
    ∧ pyStrip ⟨("BUSCAR: a BUSCAR: b" : String).data.drop 7⟩ = "a BUSCAR: b"
    ∧ extract_query "BUSCAR: a BUSCAR: b"
        ≠ pyStrip ⟨("BUSCAR: a BUSCAR: b" : String).data.drop 7⟩ := by
  decide

/-- C4 amended: the parser (1) trims the classifier's raw output and
(2) tests the exact prefix `BUSCAR:` case-sensitively, anchored at the
start (the test succeeds exactly when the trimmed output is `BUSCAR:`
followed by a remainder); but (3) the extraction removes every occurrence
of `BUSCAR:` before trimming, so it equals everything after the prefix,
trimmed, only for outputs whose remainder contains no further occurrence
of `BUSCAR:`. -/
theorem C4_parser_amended (raw : String)
    (hpre : pyStartswith (pyStrip raw) "BUSCAR:" = true)
    (hno : occursIn "BUSCAR:".data ((pyStrip raw).data.drop 7) = false) :
    (∃ rest, (pyStrip raw).data = "BUSCAR:".data ++ rest)
    ∧ extract_query (pyStrip raw) = pyStrip ⟨(pyStrip raw).data.drop 7⟩ := by
  obtain ⟨rest, hrest⟩ := (matchesAt_iff_exists _ _).mp hpre
  have h7 : ("BUSCAR:".data).length = 7 := by decide
  have hdrop : (pyStrip raw).data.drop 7 = rest := by
    rw [hrest, ← h7, List.drop_left]
  refine ⟨⟨rest, hrest⟩, ?_⟩
  rw [hdrop]
  exact extract_query_of_no_repeat _ rest hrest (by rw [← hdrop]; exact hno)

/-- Witness for C4's amended claim on a well-behaved classifier output. -/
theorem C4_parser_amended_witness :
    pyStartswith (pyStrip "  BUSCAR: clima hoy ") "BUSCAR:" = true
    ∧ occursIn "BUSCAR:".data ((pyStrip "  BUSCAR: clima hoy ").data.drop 7) = false
    ∧ ((∃ rest, (pyStrip "  BUSCAR: clima hoy ").data = "BUSCAR:".data ++ rest)
        ∧ extract_query (pyStrip "  BUSCAR: clima hoy ")
            = pyStrip ⟨(pyStrip "  BUSCAR: clima hoy ").data.drop 7⟩) :=
  ⟨by decide, by decide, C4_parser_amended "  BUSCAR: clima hoy " (by decide) (by decide)⟩

/-! ### Claim C1 -/

/-- A provider configuration with an API key, under which
`get_gemini_model` succeeds. -/
def apiKeyCfg : ProviderConfig := ⟨none, none, none, some "test-key"⟩

/-- Concrete request environment whose classifier answers exactly
`"BUSCAR:"` (empty query) and whose webhook is unreachable. -/
def envC1 : Env :=
  { config := apiKeyCfg
    gen := fun _ => .ok "BUSCAR:"
    http := fun _ => .requestError "connection refused"
    commitOk := true
    commitError := "db down" }

/-- C1 counterexample: the claim says that on classifier output
`"BUSCAR:"` with empty extracted query the orchestrator treats the
classification as `RESPONDER` and never calls `call_search_web`.  In the
code there is no such fallback: the `startswith` branch is taken and
`call_search_web` is invoked once, with the empty query. -/
theorem C1_counterexample :
    pyStrip "BUSCAR:" = "BUSCAR:"
    ∧ pyStartswith "BUSCAR:" "BUSCAR:" = true
    ∧ extract_query "BUSCAR:" = ""
    ∧ (process_query envC1 ⟨"ana", "hola"⟩).2.toolCalls = [""]
    ∧ (process_query envC1 ⟨"ana", "hola"⟩).2.toolCalls ≠ [] := by
  decide

/-- C1 amended: for every classifier output that, after trimming, matches
the prefix `BUSCAR:` but whose extracted query is empty, the orchestrator
does not fall back to direct generation: it still takes the search
branch, calls `call_search_web` exactly once with the empty query, and
its second generation call is the synthesis prompt built from the
returned payload, not the original user prompt. -/
theorem C1_empty_query_still_searches (env : Env) (req : QueryRequest)
    (c : Client × List Tool) (raw : String)
    (hm : get_gemini_model env.config = .ok c)
    (hc : env.gen (analysis_prompt req.prompt) = .ok raw)
    (hpre : pyStartswith (pyStrip raw) "BUSCAR:" = true)
    (hq : extract_query (pyStrip raw) = "") :
    (process_query env req).2.toolCalls = [""]
    ∧ (process_query env req).2.genCalls =
        [analysis_prompt req.prompt,
         final_prompt req.prompt (renderPayload (call_search_web "" (env.http "")))] := by
  have hred := process_query_search env req c raw hm hc hpre
  rw [hq] at hred
  rw [hred]
  cases hfp : env.gen (final_prompt req.prompt (renderPayload (call_search_web "" (env.http "")))) with
  | error e => simp [hfp]
  | ok ans => cases hco : env.commitOk <;> simp [hfp, hco]

/-- Witness for C1's amended claim on the concrete environment `envC1`. -/
theorem C1_empty_query_still_searches_witness :
    get_gemini_model envC1.config = Except.ok (Client.apiKey "test-key", [Tool.search_web])
    ∧ envC1.gen (analysis_prompt "hola") = .ok "BUSCAR:"
    ∧ pyStartswith (pyStrip "BUSCAR:") "BUSCAR:" = true
    ∧ extract_query (pyStrip "BUSCAR:") = ""
    ∧ ((process_query envC1 ⟨"ana", "hola"⟩).2.toolCalls = [""]
        ∧ (process_query envC1 ⟨"ana", "hola"⟩).2.genCalls =
            [analysis_prompt "hola",
             final_prompt "hola" (renderPayload (call_search_web "" (envC1.http "")))]) :=
  ⟨by decide, rfl, by decide, by decide,
   C1_empty_query_still_searches envC1 ⟨"ana", "hola"⟩
     (Client.apiKey "test-key", [Tool.search_web]) "BUSCAR:"
     (by decide) rfl (by decide) (by decide)⟩

/-! ### Claim C5 -/

/-- Concrete request environment whose classifier answer embeds
`BUSCAR:` a second time inside the query text. -/
def envC5 : Env :=
  { config := apiKeyCfg
    gen := fun _ => .ok "BUSCAR: x BUSCAR: y"
    http := fun _ => .requestError "down"
    commitOk := true
    commitError := "db down" }

/-- C5 counterexample: the claim says that when the classifier emits
`BUSCAR: <q>` with non-empty `<q>`, the tool is called with `<q>` as the
query.  On classifier output `"BUSCAR: x BUSCAR: y"` we have
`<q> = "x BUSCAR: y"` (non-empty), yet the code calls the tool with
`"x  y"`, because `replace` also removes the inner occurrence. -/
theorem C5_counterexample :
    pyStrip "BUSCAR: x BUSCAR: y" = "BUSCAR: x BUSCAR: y"
    ∧ pyStartswith "BUSCAR: x BUSCAR: y" "BUSCAR:" = true
    ∧ pyStrip ⟨("BUSCAR: x BUSCAR: y" : String).data.drop 7⟩ = "x BUSCAR: y"
    ∧ (process_query envC5 ⟨"ana", "hola"⟩).2.toolCalls = ["x  y"]
    ∧ ("x  y" : String) ≠ "x BUSCAR: y" := by
  decide

/-- C5 amended: when the classifier output trims to `BUSCAR:` followed by
text with non-empty extracted query, the tool is called exactly once with
the extracted query (equal to `<q>` whenever `<q>` contains no further
`BUSCAR:` occurrence), and regardless of the tool outcome the
orchestrator issues exactly one synthesis call whose prompt restates the
original user prompt and embeds the returned payload verbatim; when that
call and the commit succeed, its output is returned as the final
answer. -/
theorem C5_search_then_synthesis (env : Env) (req : QueryRequest)
    (c : Client × List Tool) (raw ans : String)
    (hm : get_gemini_model env.config = .ok c)
    (hc : env.gen (analysis_prompt req.prompt) = .ok raw)
    (hpre : pyStartswith (pyStrip raw) "BUSCAR:" = true)
    (hne : extract_query (pyStrip raw) ≠ "")
    (hgen : env.gen (final_prompt req.prompt (renderPayload
        (call_search_web (extract_query (pyStrip raw))
          (env.http (extract_query (pyStrip raw)))))) = .ok ans) :
    (process_query env req).2.toolCalls = [extract_query (pyStrip raw)]
    ∧ (process_query env req).2.genCalls =
        [analysis_prompt req.prompt,
         final_prompt req.prompt (renderPayload
           (call_search_web (extract_query (pyStrip raw))
             (env.http (extract_query (pyStrip raw)))))]
    ∧ (env.commitOk = true → (process_query env req).1 = .ok ans) := by
  have hred := process_query_search env req c raw hm hc hpre
  rw [hred]
  cases hco : env.commitOk <;> simp [hgen, hco]

/-- Concrete well-behaved environment for C5: classifier answers
`BUSCAR: clima hoy`, the webhook is down, synthesis still answers. -/
def envC5w : Env :=
  { config := apiKeyCfg
    gen := fun _ => .ok "BUSCAR: clima hoy"
    http := fun _ => .requestError "down"
    commitOk := true
    commitError := "db down" }

/-- Witness for C5's amended claim on the concrete environment
`envC5w`. -/
theorem C5_search_then_synthesis_witness :
    extract_query (pyStrip "BUSCAR: clima hoy") ≠ ""
    ∧ ((process_query envC5w ⟨"ana", "pregunta"⟩).2.toolCalls
          = [extract_query (pyStrip "BUSCAR: clima hoy")]
      ∧ (process_query envC5w ⟨"ana", "pregunta"⟩).2.genCalls =
          [analysis_prompt "pregunta",
           final_prompt "pregunta" (renderPayload
             (call_search_web (extract_query (pyStrip "BUSCAR: clima hoy"))
               (envC5w.http (extract_query (pyStrip "BUSCAR: clima hoy")))))]
      ∧ (envC5w.commitOk = true →
          (process_query envC5w ⟨"ana", "pregunta"⟩).1 = .ok "BUSCAR: clima hoy")) :=
  ⟨by decide,
   C5_search_then_synthesis envC5w ⟨"ana", "pregunta"⟩
     (Client.apiKey "test-key", [Tool.search_web]) "BUSCAR: clima hoy" "BUSCAR: clima hoy"
     (by decide) rfl (by decide) (by decide) rfl⟩

/-! ### Claim C6 -/

/-- C6: for every classifier output that is `RESPONDER` or any other text
whose trimmed form does not start with `BUSCAR:`, the tool invoker is
never called and the parser never raises (it is a total function): the
orchestrator takes the direct-answer path, calling the generator exactly
once more with the raw user prompt unmodified, and when that call and the
commit succeed its output is the final answer. -/
theorem C6_direct_path (env : Env) (req : QueryRequest)
    (c : Client × List Tool) (raw : String)
    (hm : get_gemini_model env.config = .ok c)
    (hc : env.gen (analysis_prompt req.prompt) = .ok raw)
    (hnp : pyStartswith (pyStrip raw) "BUSCAR:" = false) :
    (process_query env req).2.toolCalls = []
    ∧ (process_query env req).2.genCalls = [analysis_prompt req.prompt, req.prompt]
    ∧ ∀ ans, env.gen req.prompt = .ok ans → env.commitOk = true →
        (process_query env req).1 = .ok ans := by
  have hred := process_query_direct env req c raw hm hc hnp
  rw [hred]
  cases hfp : env.gen req.prompt with
  | error e => simp [hfp]
  | ok ans0 => cases hco : env.commitOk <;> simp [hfp, hco]

/-- Concrete environment for C6: classifier answers `RESPONDER`. -/
def envC6 : Env :=
  { config := apiKeyCfg
    gen := fun _ => .ok "RESPONDER"
    http := fun _ => .requestError "down"
    commitOk := true
    commitError := "db down" }

/-- Witness for C6 on the concrete environment `envC6`. -/
theorem C6_direct_path_witness :
    pyStartswith (pyStrip "RESPONDER") "BUSCAR:" = false
    ∧ ((process_query envC6 ⟨"ana", "cuanto es 2+2"⟩).2.toolCalls = []
      ∧ (process_query envC6 ⟨"ana", "cuanto es 2+2"⟩).2.genCalls
          = [analysis_prompt "cuanto es 2+2", "cuanto es 2+2"]
      ∧ ∀ ans, envC6.gen "cuanto es 2+2" = .ok ans → envC6.commitOk = true →
          (process_query envC6 ⟨"ana", "cuanto es 2+2"⟩).1 = .ok ans) :=
  ⟨by decide,
   C6_direct_path envC6 ⟨"ana", "cuanto es 2+2"⟩
     (Client.apiKey "test-key", [Tool.search_web]) "RESPONDER"
     (by decide) rfl (by decide)⟩

/-! ### Claim C7 -/

/-- C7: for every request in which a valid final answer was computed but
the log write fails, the handler reports a fatal internal error
(`HTTPException` with the wrapped message), the transaction is rolled
back, and the computed final answer is not returned (the outcome is not
`ok` for any string). -/
theorem C7_persistence_failure_discards_answer (env : Env) (req : QueryRequest)
    (c : Client × List Tool) (ans : String)
    (hm : get_gemini_model env.config = .ok c)
    (ha : (compute_answer env req).result = .ok ans)
    (hfail : env.commitOk = false) :
    (process_query env req).1 = .error (err_detail env.commitError)
    ∧ (process_query env req).2.rolledBack = true
    ∧ ∀ s, (process_query env req).1 ≠ .ok s := by
  unfold process_query
  rw [hm]
  cases hca : compute_answer env req with
  | mk r gs ts =>
    rw [hca] at ha
    have hr : r = .ok ans := ha
    subst hr
    simp [hfail]

/-- Concrete environment for C7: generation succeeds, the commit
fails. -/
def envC7 : Env :=
  { config := apiKeyCfg
    gen := fun _ => .ok "RESPONDER"
    http := fun _ => .requestError "down"
    commitOk := false
    commitError := "disk full" }

/-- Witness for C7 on the concrete environment `envC7`. -/
theorem C7_persistence_failure_discards_answer_witness :
    (compute_answer envC7 ⟨"ana", "hola"⟩).result = .ok "RESPONDER"
    ∧ envC7.commitOk = false
    ∧ ((process_query envC7 ⟨"ana", "hola"⟩).1 = .error (err_detail envC7.commitError)
      ∧ (process_query envC7 ⟨"ana", "hola"⟩).2.rolledBack = true
      ∧ ∀ s, (process_query envC7 ⟨"ana", "hola"⟩).1 ≠ .ok s) :=
  ⟨by decide, rfl,
   C7_persistence_failure_discards_answer envC7 ⟨"ana", "hola"⟩
     (Client.apiKey "test-key", [Tool.search_web]) "RESPONDER"
     (by decide) (by decide) rfl⟩

/-! ### Claim C8 -/

/-- C8: every request that reaches the orchestrator produces exactly one
terminal outcome — a final answer or a propagated failure (the handler is
a total function into `Except`, and the two cases are exhaustive) — and
attempts at most one `QueryLog` write: exactly one write attempt (of the
entry for this request) when generation completed, and zero write
attempts when the request fails before completion (client construction or
generation raised). -/
theorem C8_one_outcome_one_write (env : Env) (req : QueryRequest) :
    ((∃ ans, (process_query env req).1 = .ok ans)
      ∨ (∃ e, (process_query env req).1 = .error e))
    ∧ (process_query env req).2.logAttempts.length ≤ 1
    ∧ (∀ c ans, get_gemini_model env.config = .ok c →
        (compute_answer env req).result = .ok ans →
        (process_query env req).2.logAttempts = [⟨req.user_name, req.prompt, ans⟩])
    ∧ ((process_query env req).2.logAttempts ≠ [] →
        ∃ ans, (compute_answer env req).result = .ok ans) := by
  cases hm : get_gemini_model env.config with
  | error e =>
    unfold process_query
    rw [hm]
    refine ⟨Or.inr ⟨_, rfl⟩, by simp, ?_, by simp⟩
    intro c ans hc ha
    exact absurd hc (by simp)
  | ok c =>
    cases hca : compute_answer env req with
    | mk r gs ts =>
      unfold process_query
      rw [hm, hca]
      cases r with
      | error e =>
        refine ⟨Or.inr ⟨_, rfl⟩, by simp, ?_, by simp⟩
        intro c' ans hc' ha
        exact absurd ha (by simp)
      | ok fa =>
        cases hco : env.commitOk with
        | false =>
          refine ⟨Or.inr ⟨err_detail env.commitError, by simp [hco]⟩, by simp [hco],
            ?_, fun _ => ⟨fa, rfl⟩⟩
          intro c' ans hc' ha
          have hfa : fa = ans := by simpa using ha
          subst hfa
          simp [hco]
        | true =>
          refine ⟨Or.inl ⟨fa, by simp [hco]⟩, by simp [hco], ?_, fun _ => ⟨fa, rfl⟩⟩
          intro c' ans hc' ha
          have hfa : fa = ans := by simpa using ha
          subst hfa
          simp [hco]

/-! ### Claim C9 -/

/-- C9: when the search endpoint returns a success status but a body that
is not valid JSON, `call_search_web` still does not raise: the decode
failure happens inside the guarded region and is converted by the blanket
`except` clause into the `"Unexpected error"` payload carrying the decode
message and the original query, and the orchestrator's synthesis proceeds
with that payload, still producing a final answer. -/
theorem C9_invalid_json_degrades (env : Env) (req : QueryRequest)
    (c : Client × List Tool) (raw : String) (status : Nat) (sm dm ans : String)
    (hm : get_gemini_model env.config = .ok c)
    (hc : env.gen (analysis_prompt req.prompt) = .ok raw)
    (hpre : pyStartswith (pyStrip raw) "BUSCAR:" = true)
    (hstatus : statusRaises status = false)
    (hhttp : env.http (extract_query (pyStrip raw)) = .response status none sm dm)
    (hgen : env.gen (final_prompt req.prompt (renderPayload (ToolPayload.dict
        [("error", "Unexpected error"), ("message", dm),
         ("query", extract_query (pyStrip raw))]))) = .ok ans)
    (hco : env.commitOk = true) :
    call_search_web (extract_query (pyStrip raw)) (env.http (extract_query (pyStrip raw)))
      = .dict [("error", "Unexpected error"), ("message", dm),
               ("query", extract_query (pyStrip raw))]
    ∧ (process_query env req).1 = .ok ans
    ∧ (process_query env req).2.toolCalls = [extract_query (pyStrip raw)] := by
  have hpay : call_search_web (extract_query (pyStrip raw))
      (env.http (extract_query (pyStrip raw)))
      = .dict [("error", "Unexpected error"), ("message", dm),
               ("query", extract_query (pyStrip raw))] := by
    rw [hhttp]
    simp [call_search_web, hstatus]
  have hred := process_query_search env req c raw hm hc hpre
  rw [hred]
  refine ⟨hpay, ?_, ?_⟩ <;> simp [hpay, hgen, hco]

/-- Concrete environment for C9: webhook answers 200 with a body that is
not valid JSON. -/
def envC9 : Env :=
  { config := apiKeyCfg
    gen := fun _ => .ok "BUSCAR: noticias"
    http := fun _ => .response 200 none "status ok" "Expecting value: line 1 column 1"
    commitOk := true
    commitError := "db down" }

/-- Witness for C9 on the concrete environment `envC9`. -/
theorem C9_invalid_json_degrades_witness :
    statusRaises 200 = false
    ∧ (call_search_web (extract_query (pyStrip "BUSCAR: noticias"))
          (envC9.http (extract_query (pyStrip "BUSCAR: noticias")))
        = .dict [("error", "Unexpected error"),
                 ("message", "Expecting value: line 1 column 1"),
                 ("query", extract_query (pyStrip "BUSCAR: noticias"))]
      ∧ (process_query envC9 ⟨"ana", "que hay de nuevo"⟩).1 = .ok "BUSCAR: noticias"
      ∧ (process_query envC9 ⟨"ana", "que hay de nuevo"⟩).2.toolCalls
          = [extract_query (pyStrip "BUSCAR: noticias")]) :=
  ⟨by decide,
   C9_invalid_json_degrades envC9 ⟨"ana", "que hay de nuevo"⟩
     (Client.apiKey "test-key", [Tool.search_web]) "BUSCAR: noticias"
     200 "status ok" "Expecting value: line 1 column 1" "BUSCAR: noticias"
     (by decide) rfl (by decide) (by decide) (by decide) rfl rfl⟩

/-! ### Claim C10 -/

/-- C10: `get_gemini_model` is invoked inside the request handler, so its
configuration check runs on every request (`process_query` evaluates it
for the request's own environment); whenever the provider configuration
is missing — Vertex mode enabled without a project id, or Vertex mode
disabled without an API key — client construction raises `ValueError`,
the handler's fatal-error path catches it, the request fails with the
internal-error response, and no generation call, no tool call and no log
write happens (the transaction is rolled back). -/
theorem C10_missing_config_fatal (env : Env) (req : QueryRequest)
    (h : (useVertex env.config = true ∧ strFalsy env.config.cloud_project = true)
       ∨ (useVertex env.config = false ∧ strFalsy env.config.api_key = true)) :
    ∃ e, get_gemini_model env.config = .error e
      ∧ process_query env req = (.error (err_detail e), ⟨[], [], [], true⟩) := by
  have hge : ∃ e, get_gemini_model env.config = .error e := by
    obtain ⟨hv, hp⟩ | ⟨hv, hk⟩ := h
    · exact ⟨vertexProjectError, by simp [get_gemini_model, hv, hp]⟩
    · exact ⟨apiKeyError, by simp [get_gemini_model, hv, hk]⟩
  obtain ⟨e, he⟩ := hge
  refine ⟨e, he, ?_⟩
  unfold process_query
  rw [he]

/-- Concrete environment for C10: Vertex mode is enabled but no project
id is configured (an API key being present does not help, since the
vertex branch never reads it). -/
def envC10 : Env :=
  { config := ⟨some "True", none, some "us-central1", some "unused-key"⟩
    gen := fun _ => .ok "RESPONDER"
    http := fun _ => .requestError "down"
    commitOk := true
    commitError := "db down" }

/-- Witness for C10 on the concrete environment `envC10`. -/
theorem C10_missing_config_fatal_witness :
    (useVertex envC10.config = true ∧ strFalsy envC10.config.cloud_project = true)
    ∧ ∃ e, get_gemini_model envC10.config = .error e
        ∧ process_query envC10 ⟨"ana", "hola"⟩ = (.error (err_detail e), ⟨[], [], [], true⟩) :=
  ⟨⟨by decide, by decide⟩,
   C10_missing_config_fatal envC10 ⟨"ana", "hola"⟩ (Or.inl ⟨by decide, by decide⟩)⟩

end AgentHackathon
